import Mathlib

/-!
# Movie catalog: request handlers, gates and stores

A shallow embedding of `routes/movies.js`, `middleware/auth.js`, `models/Movie.js`
and the routing part of `server.js`.

* Requests carry an optional session, the `:id` route parameter, a form body and the
  notices queued with `req.flash`. The flash middleware keeps the notices in the session, so
  `req.flash` throws on a request that has no session object.
* An error thrown outside a `try` block ends at the error middleware of `server.js`.
* The document stores are lists; every storage call of a request takes the fault (if any)
  that the storage layer throws at that call, so both the working and the failing store are
  covered.
* Library calls are embedded by their documented behaviour: the validation chain of
  `express-validator` (sanitizers write the sanitized value back into `req.body`),
  `save()` of the document model (runs the schema validators before writing),
  `findByIdAndUpdate` (casts the update, does not run the schema validators) and the cast of an
  identifier to an ObjectId in every query by identifier (a string that does not cast makes the
  query throw).
-/

namespace MovieApp

/-! ## JavaScript string helpers -/

/-- JavaScript `s.length`: the number of UTF-16 code units. -/
def jsLength (s : String) : Nat :=
  (s.toList.map fun c => if c.toNat < 65536 then 1 else 2).sum

/-- White space as removed by `trim`: the JavaScript `\s` class plus U+FEFF and U+00A0. -/
def isJsSpace (c : Char) : Bool :=
  let n := c.toNat
  (9 ≤ n && n ≤ 13) || n == 32 || n == 160 || n == 5760 || (8192 ≤ n && n ≤ 8202) ||
    n == 8232 || n == 8233 || n == 8239 || n == 8287 || n == 12288 || n == 65279

/-- Remove white space from both ends of a character list. -/
def trimChars (cs : List Char) : List Char :=
  ((cs.dropWhile isJsSpace).reverse.dropWhile isJsSpace).reverse

/-- The `trim` sanitizer / the `trim: true` schema setter. -/
def jsTrim (s : String) : String := String.mk (trimChars s.toList)

/-- Value of a decimal digit. -/
def digitVal (c : Char) : Option Nat :=
  if 48 ≤ c.toNat ∧ c.toNat ≤ 57 then some (c.toNat - 48) else none

/-- Value of a hexadecimal digit. -/
def hexVal (c : Char) : Option Nat :=
  if 48 ≤ c.toNat ∧ c.toNat ≤ 57 then some (c.toNat - 48)
  else if 97 ≤ c.toNat ∧ c.toNat ≤ 102 then some (c.toNat - 87)
  else if 65 ≤ c.toNat ∧ c.toNat ≤ 70 then some (c.toNat - 55)
  else none

/-- Value of a string consisting of digits only (in the given base), most significant first;
`none` when a character is not a digit. The empty list has value `0`. -/
def allDigits (digit : Char → Option Nat) (base : Nat) : List Char → Nat → Option Nat
  | [], acc => some acc
  | c :: cs, acc =>
    match digit c with
    | some d => allDigits digit base cs (acc * base + d)
    | none => none

/-- The integer a string denotes under the pattern `^[-+]?[0-9]+$` used by `isInt`. -/
def readInt (s : String) : Option Int :=
  match s.toList with
  | [] => none
  | '-' :: d :: ds => (allDigits digitVal 10 (d :: ds) 0).map fun n => -(n : Int)
  | '+' :: d :: ds => (allDigits digitVal 10 (d :: ds) 0).map fun n => (n : Int)
  | d :: ds => (allDigits digitVal 10 (d :: ds) 0).map fun n => (n : Int)

/-- The validator `isInt({ min, max })` on the stringified field value. -/
def isInt (s : String) (min max : Int) : Bool :=
  match readInt s with
  | some n => decide (min ≤ n) && decide (n ≤ max)
  | none => false

/-- Value of the longest prefix of digits, `none` when the prefix is empty. -/
def digitPrefix (digit : Char → Option Nat) (base : Nat) (cs : List Char) : Option Nat :=
  match cs.takeWhile fun c => (digit c).isSome with
  | [] => none
  | ds => allDigits digit base ds 0

/-- JavaScript `parseInt(s)` with no radix; `none` stands for `NaN`. -/
def parseInt (s : String) : Option Int :=
  let body (cs : List Char) : Option Nat :=
    match cs with
    | '0' :: 'x' :: hs => digitPrefix hexVal 16 hs
    | '0' :: 'X' :: hs => digitPrefix hexVal 16 hs
    | ds => digitPrefix digitVal 10 ds
  match s.toList.dropWhile isJsSpace with
  | '-' :: cs => (body cs).map fun n => -(n : Int)
  | '+' :: cs => (body cs).map fun n => (n : Int)
  | cs => (body cs).map fun n => (n : Int)

/-- The pieces of a path between its slashes. -/
def splitSlash : List Char → List Char → List (List Char)
  | [], cur => [cur.reverse]
  | c :: cs, cur =>
    if c = '/' then cur.reverse :: splitSlash cs [] else splitSlash cs (c :: cur)

/-- Path segments of a request path: the pieces after the leading slash. One trailing slash is
ignored (routing is not strict); an empty piece anywhere else stays and matches no route. -/
def segments (path : String) : List String :=
  let parts := ((splitSlash path.toList []).drop 1).map String.mk
  if parts.getLast? = some "" then parts.dropLast else parts

/-- The length that the validator `isLength` compares: UTF-16 code units, a surrogate pair
counted once and the variation selectors U+FE0F and U+FE0E left out. -/
def validatorLength (s : String) : Nat :=
  (s.toList.filter fun c => c.toNat != 65039 && c.toNat != 65038).length

/-! ## Data model -/

/-- An error thrown by the storage layer (or by a library call inside a handler). -/
structure Fault where
  message : String
deriving DecidableEq

/-- A stored movie document (`models/Movie.js`). -/
structure Movie where
  _id : String
  name : String
  description : String
  year : Int
  genres : List String
  rating : Rat
  createdBy : String
  createdAt : Nat
deriving DecidableEq

/-- Modelled from the spec: the user document of `models/User.js`, which is not among the
sources. A user has a unique username, a unique email, the password stored as a hash and a
creation timestamp. -/
structure User where
  _id : String
  username : String
  email : String
  password : String
  createdAt : Nat
deriving DecidableEq

/-- The two document collections. -/
structure DB where
  movies : List Movie
  users : List User
deriving DecidableEq

/-- The session record `{ userId, username }`. -/
structure Session where
  userId : Option String
  username : Option String
deriving DecidableEq

/-- The value of `req.body.genres`: absent, one string (a single checkbox) or an array. -/
inductive GenresField where
  | missing
  | single (g : String)
  | many (gs : List String)
deriving DecidableEq

/-- The parsed form body. Every field may be absent; fields other than `genres` are strings. -/
structure Body where
  name : Option String := none
  description : Option String := none
  year : Option String := none
  genres : GenresField := GenresField.missing
  rating : Option String := none
  username : Option String := none
  email : Option String := none
  password : Option String := none
  confirmPassword : Option String := none
deriving DecidableEq

/-- One entry of `validationResult(req).array()`. -/
structure ValidationError where
  param : String
  msg : String
deriving DecidableEq

/-- The request object as the router and its middleware see it. -/
structure Req where
  session : Option Session := none
  id : String := ""
  body : Body := {}
  flash : List (String × String) := []
  movie : Option Movie := none
deriving DecidableEq

/-- What the process takes from its surroundings: the calendar year read when the modules are
loaded, the clock, the identifier given to a new document, the reading of a string as a
floating point number (`none` when `isFloat` rejects it / `parseFloat` gives `NaN`), whether
the driver casts a string to an ObjectId (24 hexadecimal digits do), and the password hashing
of the user model. -/
structure Env where
  currentYear : Int
  now : Nat
  newId : String
  readFloat : String → Option Rat
  isObjectId : String → Bool
  hash : String → String
  comparePassword : String → String → Bool

/-- The fault thrown at the `k`-th storage call of a request, if any. -/
def faultAt (fs : List (Option Fault)) (k : Nat) : Option Fault := (fs.get? k).join

/-- The request after a notice has been queued in its session. -/
def Req.flashMsg (req : Req) (type msg : String) : Req :=
  { req with flash := req.flash ++ [(type, msg)] }

/-- The method `req.flash(type, msg)` of the flash middleware installed in `server.js`: the
notices are kept in the session, so the call throws when the request has no session object;
otherwise the notice is queued. -/
def Req.flashCall (req : Req) (type msg : String) : Except Fault Req :=
  match req.session with
  | some _ => .ok (req.flashMsg type msg)
  | none => .error ⟨"req.flash() requires sessions"⟩

/-! ## The movie store -/

/-- Whether a movie identifier casts to an ObjectId. The identifiers of stored movies are
ObjectIds, so an identifier that names a stored movie casts. -/
def castsToObjectId (env : Env) (db : DB) (id : String) : Bool :=
  env.isObjectId id || db.movies.any fun m => m._id == id

/-- The error thrown by a query whose identifier does not cast. -/
def castError (id : String) : Fault :=
  ⟨"Cast to ObjectId failed for value \"" ++ id ++ "\" (type string) at path \"_id\" for model \"Movie\""⟩

/-- The method `Movie.findById(id)`: the identifier is cast first (a string that does not cast
makes the call throw), then the store is asked. -/
def Movie.findById (env : Env) (fault : Option Fault) (db : DB) (id : String) :
    Except Fault (Option Movie) :=
  if castsToObjectId env db id then
    match fault with
    | some f => .error f
    | none => .ok (db.movies.find? fun m => m._id == id)
  else .error (castError id)

/-- The argument of `new Movie({...})`; `none` in a number field stands for `NaN`. -/
structure MovieDoc where
  name : Option String
  description : Option String
  year : Option Int
  genres : List String
  rating : Option Rat
  createdBy : Option String

/-- The validator of the `genres` path: `v.length > 0 && v.length <= 5`. -/
def genresValidator (v : List String) : Bool := decide (v.length > 0) && decide (v.length ≤ 5)

/-- Errors of a required, trimmed string path with a maximum length. -/
def stringPathErrors (path required tooLong : String) (max : Nat) (v : Option String) :
    List (String × String) :=
  match v.map jsTrim with
  | none => [(path, required)]
  | some s =>
    if s = "" then [(path, required)]
    else if jsLength s > max then [(path, tooLong)] else []

/-- Errors of a required number path with a minimum and a maximum. -/
def numberPathErrors (path low high : String) (min max : Rat) (v : Option Rat) :
    List (String × String) :=
  match v with
  | none =>
    [(path, "Cast to Number failed for value \"NaN\" (type number) at path \"" ++ path ++ "\"")]
  | some x =>
    if x < min then [(path, low)] else if x > max then [(path, high)] else []

/-- The schema of `models/Movie.js` applied to a new document: the failing paths with their
messages. -/
def schemaErrors (env : Env) (doc : MovieDoc) : List (String × String) :=
  stringPathErrors "name" "Movie name is required" "Movie name cannot exceed 100 characters" 100
      doc.name
  ++ stringPathErrors "description" "Description is required"
      "Description cannot exceed 500 characters" 500 doc.description
  ++ numberPathErrors "year" "Year must be 1888 or later" "Year cannot be in the distant future"
      1888 ((env.currentYear + 5 : Int) : Rat) (doc.year.map fun y => (y : Rat))
  ++ (if genresValidator doc.genres then [] else [("genres", "Must have 1-5 genres")])
  ++ numberPathErrors "rating" "Rating must be between 0 and 10" "Rating must be between 0 and 10"
      0 10 doc.rating
  ++ (match doc.createdBy with
      | none => [("createdBy", "Path createdBy is required.")]
      | some u =>
        if env.isObjectId u then []
        else [("createdBy", "Cast to ObjectId failed for value \"" ++ u ++ "\"")])

/-- The message of the validation error that `save()` throws. -/
def validationMessage (errs : List (String × String)) : String :=
  "Movie validation failed: " ++ ", ".intercalate (errs.map fun e => e.1 ++ ": " ++ e.2)

/-- The document that `save()` writes once the schema accepts it. -/
def MovieDoc.toMovie (env : Env) (doc : MovieDoc) : Movie :=
  { _id := env.newId
    name := jsTrim (doc.name.getD "")
    description := jsTrim (doc.description.getD "")
    year := doc.year.getD 0
    genres := doc.genres
    rating := doc.rating.getD 0
    createdBy := doc.createdBy.getD ""
    createdAt := env.now }

/-- The method `movie.save()` on a new document: the schema validators run first; a document
they reject is not written and a validation error is thrown. -/
def Movie.save (fault : Option Fault) (env : Env) (db : DB) (doc : MovieDoc) : Except Fault DB :=
  match schemaErrors env doc with
  | e :: es => .error ⟨validationMessage (e :: es)⟩
  | [] =>
    match fault with
    | some f => .error f
    | none => .ok { db with movies := db.movies ++ [doc.toMovie env] }

/-- The object passed to `findByIdAndUpdate`. -/
structure UpdateData where
  name : Option String
  description : Option String
  year : Option Int
  genres : List String
  rating : Option Rat

/-- Replace the first document with the given identifier. -/
def updateFirst (id : String) (f : Movie → Movie) : List Movie → List Movie
  | [] => []
  | m :: ms => if m._id == id then f m :: ms else m :: updateFirst id f ms

/-- The fields set by an update; absent keys leave the stored value. -/
def UpdateData.apply (u : UpdateData) (m : Movie) : Movie :=
  { m with
    name := (u.name.map jsTrim).getD m.name
    description := (u.description.map jsTrim).getD m.description
    year := u.year.getD m.year
    genres := u.genres
    rating := u.rating.getD m.rating }

/-- The method `Movie.findByIdAndUpdate(id, update)`, called without options: the update is cast
to the schema types (a `NaN` number does not cast) and written; the schema validators are not
run. -/
def Movie.findByIdAndUpdate (env : Env) (fault : Option Fault) (db : DB) (id : String)
    (u : UpdateData) : Except Fault DB :=
  if !castsToObjectId env db id then .error (castError id)
  else if u.year.isNone then
    .error ⟨"Cast to Number failed for value \"NaN\" (type number) at path \"year\""⟩
  else if u.rating.isNone then
    .error ⟨"Cast to Number failed for value \"NaN\" (type number) at path \"rating\""⟩
  else
    match fault with
    | some f => .error f
    | none => .ok { db with movies := updateFirst id u.apply db.movies }

/-- The method `Movie.findByIdAndDelete(id)`. -/
def Movie.findByIdAndDelete (env : Env) (fault : Option Fault) (db : DB) (id : String) :
    Except Fault DB :=
  if castsToObjectId env db id then
    match fault with
    | some f => .error f
    | none => .ok { db with movies := db.movies.eraseP fun m => m._id == id }
  else .error (castError id)

/-- A movie with `createdBy` populated by the creator's username (absent if no such user). -/
structure PopulatedMovie where
  movie : Movie
  creator : Option String
deriving DecidableEq

/-- The call `.populate('createdBy', 'username')`. -/
def populate (db : DB) (m : Movie) : PopulatedMovie :=
  ⟨m, (db.users.find? fun u => u._id == m.createdBy).map fun u => u.username⟩

/-- The query `Movie.find().populate('createdBy', 'username').sort({ createdAt: -1 })`. -/
def Movie.findAll (fault : Option Fault) (db : DB) : Except Fault (List PopulatedMovie) :=
  match fault with
  | some f => .error f
  | none => .ok ((db.movies.insertionSort fun a b => a.createdAt ≥ b.createdAt).map (populate db))

/-! ## The user store -/

/-- Modelled from the spec: `User.findOne({ $or: [{ email }, { username }] })` of the absent
`models/User.js`: the first user whose email or username equals the submitted one. -/
def User.findOneByEmailOrUsername (fault : Option Fault) (db : DB) (email username : Option String) :
    Except Fault (Option User) :=
  match fault with
  | some f => .error f
  | none => .ok (db.users.find? fun u => some u.email == email || some u.username == username)

/-- Modelled from the spec: `User.findOne({ email })` of the absent `models/User.js`. -/
def User.findOneByEmail (fault : Option Fault) (db : DB) (email : Option String) :
    Except Fault (Option User) :=
  match fault with
  | some f => .error f
  | none => .ok (db.users.find? fun u => some u.email == email)

/-- Modelled from the spec: `user.save()` of the absent `models/User.js`: username, email and
password are needed, username and email are each unique in the store, and the password is
stored as a hash. -/
def User.save (fault : Option Fault) (env : Env) (db : DB) (username email password : Option String) :
    Except Fault DB :=
  match username, email, password with
  | some n, some e, some p =>
    if db.users.any fun u => u.email == e || u.username == n then
      .error ⟨"E11000 duplicate key error"⟩
    else
      match fault with
      | some f => .error f
      | none =>
        .ok { db with users := db.users ++ [⟨env.newId, n, e, env.hash p, env.now⟩] }
  | _, _, _ => .error ⟨"User validation failed"⟩

/-- Modelled from the spec: `user.comparePassword(candidate)` of the absent `models/User.js`:
the comparison of a candidate with the stored hash. -/
def User.comparePassword (fault : Option Fault) (env : Env) (u : User) (candidate : Option String) :
    Except Fault Bool :=
  match fault with
  | some f => .error f
  | none =>
    match candidate with
    | some c => .ok (env.comparePassword c u.password)
    | none => .error ⟨"data and hash arguments required"⟩

/-! ## Responses -/

/-- A rendered view with the data object passed to it. -/
inductive View where
  | index (title : Option String) (movies : List PopulatedMovie)
  | moviesAdd (title : String) (movie : Body) (errors : Option (List ValidationError))
      (genres : List String)
  | moviesShow (title : String) (movie : PopulatedMovie)
  | moviesEdit (title : String) (movie : Movie) (overlay : Option Body)
      (errors : Option (List ValidationError)) (genres : List String)
  | authRegister (title : String) (errors : Option (List String)) (user : Body)
  | authLogin (title : String) (errors : Option (List String)) (user : Body)
deriving DecidableEq

/-- The template name given to `res.render`. -/
def View.name : View → String
  | .index .. => "index"
  | .moviesAdd .. => "movies/add"
  | .moviesShow .. => "movies/show"
  | .moviesEdit .. => "movies/edit"
  | .authRegister .. => "auth/register"
  | .authLogin .. => "auth/login"

/-- The response sent to the client. `page` is one of the two fixed HTML pages of `server.js`,
named by its heading. -/
inductive Response where
  | redirect (location : String)
  | render (view : View)
  | json (status : Nat) (success : Bool) (error : Option String)
  | page (status : Nat) (heading : String)
deriving DecidableEq

/-- What a middleware or handler leaves behind when it answers: the response, the request
object (session and queued notices) and the lines written with `console.error`. -/
structure Reply where
  res : Response
  req : Req
  log : List (String × String) := []
deriving DecidableEq

/-- A middleware either calls `next()` or answers. -/
inductive Step where
  | next (req : Req)
  | done (r : Reply)
deriving DecidableEq

/-- The result of a request: the reply and the stores afterwards. -/
structure Outcome where
  reply : Reply
  db : DB
deriving DecidableEq

/-- What the client gets to see: the response and the notices shown on the next page. -/
def Outcome.visible (o : Outcome) : Response × List (String × String) :=
  (o.reply.res, o.reply.req.flash)

/-- JavaScript truthiness of an optional string. -/
def truthy (v : Option String) : Bool :=
  match v with
  | some s => s != ""
  | none => false

/-- The message of the `TypeError` raised when a property of `undefined` is read. -/
def typeErrorMessage (prop : String) : String :=
  "Cannot read properties of undefined (reading \x27" ++ prop ++ "\x27)"

/-- The page sent by the error middleware of `server.js`. -/
def serverErrorPage : Response := .page 500 "Server Error"

/-- The error middleware of `server.js`, reached when a middleware or handler throws outside a
`try` block: the error is written to the log and the 500 page is sent. `log` holds what the
handler had written before. -/
def errorHandler (req : Req) (log : List (String × String)) (e : Fault) : Reply :=
  { res := serverErrorPage, req := req, log := log ++ [("", e.message)] }

/-- The last middleware of `server.js`, reached when no route matches. -/
def notFoundPage : Response := .page 404 "Page Not Found"

/-- The genre choices passed to the movie forms. -/
def genreChoices : List String :=
  ["Action", "Adventure", "Comedy", "Drama", "Fantasy", "Horror", "Romance", "Sci-Fi", "Thriller"]

/-! ## Gates -/

namespace Auth

/-- The export `isAuthenticated` of `middleware/auth.js`. -/
def isAuthenticated (req : Req) : Step :=
  if (match req.session with
      | some s => truthy s.userId
      | none => false) then .next req
  else
    match req.flashCall "error" "You need to log in first" with
    | .ok req1 => .done { res := .redirect "/login", req := req1 }
    | .error e => .done (errorHandler req [] e)

/-- The export `isMovieOwner` of `middleware/auth.js`. -/
def isMovieOwner (env : Env) (fault : Option Fault) (db : DB) (req : Req) : Step :=
  let caught (e : Fault) : Step :=
    match req.flashCall "error" "Server error" with
    | .ok req1 => .done { res := .redirect "/movies", req := req1, log := [("", e.message)] }
    | .error e2 => .done (errorHandler req [("", e.message)] e2)
  match Movie.findById env fault db req.id with
  | .error e => caught e
  | .ok none =>
    match req.flashCall "error" "Movie not found" with
    | .ok req1 => .done { res := .redirect "/movies", req := req1 }
    | .error e => caught e
  | .ok (some movie) =>
    match req.session with
    | none => caught ⟨typeErrorMessage "userId"⟩
    | some s =>
      if some movie.createdBy ≠ s.userId then
        match req.flashCall "error" "You can only edit or delete movies you created" with
        | .ok req1 => .done { res := .redirect ("/movies/" ++ movie._id), req := req1 }
        | .error e => caught e
      else .next { req with movie := some movie }

end Auth

/-- The middleware `isAuthenticated` of `routes/movies.js`. -/
def isAuthenticated (req : Req) : Step :=
  if (match req.session with
      | some s => truthy s.userId
      | none => false) then .next req
  else
    match req.flashCall "error" "You need to log in first" with
    | .ok req1 => .done { res := .redirect "/login", req := req1 }
    | .error e => .done (errorHandler req [] e)

/-- The middleware `isMovieOwner` of `routes/movies.js`. -/
def isMovieOwner (env : Env) (fault : Option Fault) (db : DB) (req : Req) : Step :=
  let caught (e : Fault) : Step :=
    match req.flashCall "error" "Server error" with
    | .ok req1 =>
      .done { res := .redirect "/movies", req := req1,
              log := [("Error checking movie ownership:", e.message)] }
    | .error e2 => .done (errorHandler req [("Error checking movie ownership:", e.message)] e2)
  match Movie.findById env fault db req.id with
  | .error e => caught e
  | .ok none =>
    match req.flashCall "error" "Movie not found" with
    | .ok req1 => .done { res := .redirect "/movies", req := req1 }
    | .error e => caught e
  | .ok (some movie) =>
    match req.session with
    | none => caught ⟨typeErrorMessage "userId"⟩
    | some s =>
      if some movie.createdBy ≠ s.userId then
        match req.flashCall "error" "You can only edit or delete movies you created" with
        | .ok req1 => .done { res := .redirect ("/movies/" ++ movie._id), req := req1 }
        | .error e => caught e
      else .next { req with movie := some movie }

/-- The check of `body('genres').custom(...)`: `!value`. -/
def genresFalsy : GenresField → Bool
  | .missing => true
  | .single g => g == ""
  | .many _ => false

/-- The chain `movieValidation`: `name` and `description` are trimmed in `req.body` (an absent
field becomes the empty string), every validator of every chain runs, and the errors are
collected in chain order. All chains call `next()`; the result is the request passed on and
the list that `validationResult(req).array()` gives. -/
def movieValidation (env : Env) (req : Req) : Req × List ValidationError :=
  let name := jsTrim (req.body.name.getD "")
  let description := jsTrim (req.body.description.getD "")
  let errs : List ValidationError :=
    (if name = "" then [⟨"name", "Movie name is required"⟩] else [])
    ++ (if validatorLength name > 100 then [⟨"name", "Name cannot exceed 100 characters"⟩]
        else [])
    ++ (if description = "" then [⟨"description", "Description is required"⟩] else [])
    ++ (if validatorLength description > 500 then
          [⟨"description", "Description cannot exceed 500 characters"⟩] else [])
    ++ (if isInt (req.body.year.getD "") 1888 (env.currentYear + 5) then []
        else [⟨"year", "Please enter a valid year"⟩])
    ++ (if genresFalsy req.body.genres then [⟨"genres", "At least one genre is required"⟩] else [])
    ++ (match req.body.rating.bind env.readFloat with
        | some r => if 0 ≤ r ∧ r ≤ 10 then [] else [⟨"rating", "Rating must be between 0 and 10"⟩]
        | none => [⟨"rating", "Rating must be between 0 and 10"⟩])
  ({ req with body := { req.body with name := some name, description := some description } },
   errs)

/-! ## Route handlers -/

/-- A `catch` block that writes the error to the log, queues an error notice and redirects.
When queueing the notice throws, that error leaves the handler. -/
def catchRedirect (req : Req) (db : DB) (label notice location : String) (e : Fault) : Outcome :=
  match req.flashCall "error" notice with
  | .ok req1 => ⟨{ res := .redirect location, req := req1, log := [(label, e.message)] }, db⟩
  | .error e2 => ⟨errorHandler req [(label, e.message)] e2, db⟩

/-- The handler of `GET /`. -/
def listMovies (fs : List (Option Fault)) (db : DB) (req : Req) : Outcome :=
  match Movie.findAll (faultAt fs 0) db with
  | .ok movies => ⟨{ res := .render (.index (some "Movie Collection") movies), req := req }, db⟩
  | .error e =>
    match req.flashCall "error" "Error loading movies" with
    | .ok req1 =>
      ⟨{ res := .render (.index none []), req := req1,
         log := [("Error loading movies:", e.message)] }, db⟩
    | .error e2 => ⟨errorHandler req [("Error loading movies:", e.message)] e2, db⟩

/-- The route `GET /movies/add`. -/
def addMovieForm (db : DB) (req : Req) : Outcome :=
  match isAuthenticated req with
  | .done r => ⟨r, db⟩
  | .next req =>
    ⟨{ res := .render (.moviesAdd "Add New Movie" {} none genreChoices), req := req }, db⟩

/-- The expression `Array.isArray(req.body.genres) ? req.body.genres : [req.body.genres]`. An
absent value gives the one-element array `[undefined]`; its element is written as the empty
string (the route-level check never lets an absent value come this far). -/
def genresArray : GenresField → List String
  | .many gs => gs
  | .single g => [g]
  | .missing => [""]

/-- The final handler of `POST /movies/add`, after the gate and the validation chain. -/
def addMovieHandler (env : Env) (fs : List (Option Fault)) (db : DB) (req : Req)
    (errors : List ValidationError) : Outcome :=
  if errors ≠ [] then
    ⟨{ res := .render (.moviesAdd "Add New Movie" req.body (some errors) genreChoices),
       req := req }, db⟩
  else
    let caught (d : DB) (e : Fault) : Outcome :=
      catchRedirect req d "Error saving movie:" ("Error saving movie: " ++ e.message)
        "/movies/add" e
    match req.session with
    | none => caught db ⟨typeErrorMessage "userId"⟩
    | some s =>
      let doc : MovieDoc :=
        { name := req.body.name
          description := req.body.description
          year := (parseInt (req.body.year.getD "undefined"))
          genres := genresArray req.body.genres
          rating := (req.body.rating.bind env.readFloat)
          createdBy := s.userId }
      match Movie.save (faultAt fs 0) env db doc with
      | .ok db1 =>
        match req.flashCall "success" "Movie added successfully!" with
        | .ok req1 => ⟨{ res := .redirect "/", req := req1 }, db1⟩
        | .error e => caught db1 e
      | .error e => caught db e

/-- The route `POST /movies/add`: `isAuthenticated`, `movieValidation`, handler. -/
def addMovie (env : Env) (fs : List (Option Fault)) (db : DB) (req : Req) : Outcome :=
  match isAuthenticated req with
  | .done r => ⟨r, db⟩
  | .next req => addMovieHandler env fs db (movieValidation env req).1 (movieValidation env req).2

/-- The handler of `GET /movies/:id`. -/
def showMovie (env : Env) (fs : List (Option Fault)) (db : DB) (req : Req) : Outcome :=
  let caught (e : Fault) : Outcome :=
    catchRedirect req db "Error loading movie:" "Error loading movie" "/" e
  match Movie.findById env (faultAt fs 0) db req.id with
  | .ok none =>
    match req.flashCall "error" "Movie not found" with
    | .ok req1 => ⟨{ res := .redirect "/", req := req1 }, db⟩
    | .error e => caught e
  | .ok (some movie) =>
    ⟨{ res := .render (.moviesShow movie.name (populate db movie)), req := req }, db⟩
  | .error e => caught e

/-- The route `GET /movies/:id/edit`. The view reads the fields of `req.movie`, which the gate
has set; without it rendering throws. -/
def editMovieForm (env : Env) (fs : List (Option Fault)) (db : DB) (req : Req) : Outcome :=
  match isAuthenticated req with
  | .done r => ⟨r, db⟩
  | .next req =>
    match isMovieOwner env (faultAt fs 0) db req with
    | .done r => ⟨r, db⟩
    | .next req =>
      match req.movie with
      | some movie =>
        ⟨{ res := .render (.moviesEdit "Edit Movie" movie none none genreChoices), req := req }, db⟩
      | none => ⟨errorHandler req [] ⟨typeErrorMessage "name"⟩, db⟩

/-- The final handler of `POST /movies/:id/edit`. The object `{ ...req.movie.toObject(),
...req.body }` is kept as the stored movie together with the body laid over it. -/
def updateMovieHandler (env : Env) (fs : List (Option Fault)) (db : DB) (req : Req)
    (errors : List ValidationError) : Outcome :=
  if errors ≠ [] then
    match req.movie with
    | some movie =>
      ⟨{ res := .render (.moviesEdit "Edit Movie" movie (some req.body) (some errors)
                  genreChoices), req := req }, db⟩
    | none => ⟨errorHandler req [] ⟨typeErrorMessage "toObject"⟩, db⟩
  else
    let caught (d : DB) (e : Fault) : Outcome :=
      catchRedirect req d "Error updating movie:" "Error updating movie"
        ("/movies/" ++ req.id ++ "/edit") e
    let updateData : UpdateData :=
      { name := req.body.name
        description := req.body.description
        year := parseInt (req.body.year.getD "undefined")
        genres := genresArray req.body.genres
        rating := req.body.rating.bind env.readFloat }
    match Movie.findByIdAndUpdate env (faultAt fs 1) db req.id updateData with
    | .ok db1 =>
      match req.flashCall "success" "Movie updated successfully!" with
      | .ok req1 => ⟨{ res := .redirect ("/movies/" ++ req.id), req := req1 }, db1⟩
      | .error e => caught db1 e
    | .error e => caught db e

/-- The route `POST /movies/:id/edit`: `isAuthenticated`, `isMovieOwner`, `movieValidation`,
handler. -/
def updateMovie (env : Env) (fs : List (Option Fault)) (db : DB) (req : Req) : Outcome :=
  match isAuthenticated req with
  | .done r => ⟨r, db⟩
  | .next req =>
    match isMovieOwner env (faultAt fs 0) db req with
    | .done r => ⟨r, db⟩
    | .next req =>
      updateMovieHandler env fs db (movieValidation env req).1 (movieValidation env req).2

/-- The final handler of `DELETE /movies/:id`. Its `catch` block queues no notice. -/
def deleteMovieHandler (env : Env) (fs : List (Option Fault)) (db : DB) (req : Req) : Outcome :=
  let caught (d : DB) (e : Fault) : Outcome :=
    ⟨{ res := .json 500 false (some "Error deleting movie"), req := req,
       log := [("Error deleting movie:", e.message)] }, d⟩
  match Movie.findByIdAndDelete env (faultAt fs 1) db req.id with
  | .ok db1 =>
    match req.flashCall "success" "Movie deleted successfully!" with
    | .ok req1 => ⟨{ res := .json 200 true none, req := req1 }, db1⟩
    | .error e => caught db1 e
  | .error e => caught db e

/-- The route `DELETE /movies/:id`: `isAuthenticated`, `isMovieOwner`, handler. -/
def deleteMovie (env : Env) (fs : List (Option Fault)) (db : DB) (req : Req) : Outcome :=
  match isAuthenticated req with
  | .done r => ⟨r, db⟩
  | .next req =>
    match isMovieOwner env (faultAt fs 0) db req with
    | .done r => ⟨r, db⟩
    | .next req => deleteMovieHandler env fs db req

/-- The handler of `GET /register`; reading `req.session.userId` without a session throws. -/
def registerForm (db : DB) (req : Req) : Outcome :=
  match req.session with
  | none => ⟨errorHandler req [] ⟨typeErrorMessage "userId"⟩, db⟩
  | some s =>
    if truthy s.userId then ⟨{ res := .redirect "/", req := req }, db⟩
    else ⟨{ res := .render (.authRegister "Register" none {}), req := req }, db⟩

/-- The handler of `POST /register`. -/
def register (env : Env) (fs : List (Option Fault)) (db : DB) (req : Req) : Outcome :=
  let caught (d : DB) (e : Fault) : Outcome :=
    catchRedirect req d "Registration error:" "Error during registration" "/register" e
  let rejected (msg : String) : Outcome :=
    ⟨{ res := .render (.authRegister "Register" (some [msg]) req.body), req := req }, db⟩
  match User.findOneByEmailOrUsername (faultAt fs 0) db req.body.email req.body.username with
  | .error e => caught db e
  | .ok (some _) => rejected "Email or username already exists"
  | .ok none =>
    if req.body.password ≠ req.body.confirmPassword then rejected "Passwords do not match"
    else
      match req.body.password with
      | none => caught db ⟨typeErrorMessage "length"⟩
      | some password =>
        if jsLength password < 6 then rejected "Password must be at least 6 characters"
        else
          match User.save (faultAt fs 1) env db req.body.username req.body.email
              req.body.password with
          | .ok db1 =>
            match req.flashCall "success" "Registration successful! Please log in." with
            | .ok req1 => ⟨{ res := .redirect "/login", req := req1 }, db1⟩
            | .error e => caught db1 e
          | .error e => caught db e

/-- The handler of `GET /login`; reading `req.session.userId` without a session throws. -/
def loginForm (db : DB) (req : Req) : Outcome :=
  match req.session with
  | none => ⟨errorHandler req [] ⟨typeErrorMessage "userId"⟩, db⟩
  | some s =>
    if truthy s.userId then ⟨{ res := .redirect "/", req := req }, db⟩
    else ⟨{ res := .render (.authLogin "Login" none {}), req := req }, db⟩

/-- The handler of `POST /login`. -/
def login (env : Env) (fs : List (Option Fault)) (db : DB) (req : Req) : Outcome :=
  let caught (r : Req) (e : Fault) : Outcome :=
    catchRedirect r db "Login error:" "Error during login" "/login" e
  let rejected : Outcome :=
    ⟨{ res := .render (.authLogin "Login" (some ["Invalid email or password"]) req.body),
       req := req }, db⟩
  match User.findOneByEmail (faultAt fs 0) db req.body.email with
  | .error e => caught req e
  | .ok none => rejected
  | .ok (some user) =>
    match User.comparePassword (faultAt fs 1) env user req.body.password with
    | .error e => caught req e
    | .ok false => rejected
    | .ok true =>
      match req.session with
      | none => caught req ⟨"Cannot set properties of undefined (setting \x27userId\x27)"⟩
      | some _ =>
        let req1 := { req with session := some ⟨some user._id, some user.username⟩ }
        match req1.flashCall "success" "Logged in successfully!" with
        | .ok req2 => ⟨{ res := .redirect "/", req := req2 }, db⟩
        | .error e => caught req1 e

/-- The handler of `GET /logout`. The call `req.session.destroy` removes `req.session` (and the
notices kept in it) before it asks the store; when the store fails, the callback writes the
error to the log and calls `req.flash`, which throws for want of a session. -/
def logout (fs : List (Option Fault)) (db : DB) (req : Req) : Outcome :=
  match req.session with
  | none => ⟨errorHandler req [] ⟨typeErrorMessage "destroy"⟩, db⟩
  | some _ =>
    let req1 : Req := { req with session := none, flash := [] }
    match faultAt fs 0 with
    | some e =>
      match req1.flashCall "error" "Error logging out" with
      | .ok req2 => ⟨{ res := .redirect "/", req := req2, log := [("Logout error:", e.message)] }, db⟩
      | .error e2 => ⟨errorHandler req1 [("Logout error:", e.message)] e2, db⟩
    | none => ⟨{ res := .redirect "/login", req := req1 }, db⟩

/-! ## The router and the middleware after it -/

/-- The request methods the router distinguishes. -/
inductive Method where
  | GET
  | POST
  | DELETE
deriving DecidableEq

/-- A fixed path segment matches without regard to case. -/
def isSeg (s lit : String) : Bool := String.mk (s.toList.map Char.toLower) == lit

/-- The router of `routes/movies.js`: the routes in the order of their registration; `none`
when no route matches and the request falls through to the next middleware. The parameter
`:id` takes any segment that is not empty. -/
def router (env : Env) (fs : List (Option Fault)) (m : Method) (path : String) (db : DB)
    (req : Req) : Option Outcome :=
  match m, segments path with
  | .GET, [] => some (listMovies fs db req)
  | .GET, [a] =>
    if isSeg a "register" then some (registerForm db req)
    else if isSeg a "login" then some (loginForm db req)
    else if isSeg a "logout" then some (logout fs db req)
    else none
  | .POST, [a] =>
    if isSeg a "register" then some (register env fs db req)
    else if isSeg a "login" then some (login env fs db req)
    else none
  | .GET, [a, b] =>
    if isSeg a "movies" && b != "" then
      (if isSeg b "add" then some (addMovieForm db req)
       else some (showMovie env fs db { req with id := b }))
    else none
  | .POST, [a, b] =>
    if isSeg a "movies" && isSeg b "add" then some (addMovie env fs db req) else none
  | .DELETE, [a, b] =>
    if isSeg a "movies" && b != "" then some (deleteMovie env fs db { req with id := b })
    else none
  | .GET, [a, b, c] =>
    if isSeg a "movies" && b != "" && isSeg c "edit" then
      some (editMovieForm env fs db { req with id := b })
    else none
  | .POST, [a, b, c] =>
    if isSeg a "movies" && b != "" && isSeg c "edit" then
      some (updateMovie env fs db { req with id := b })
    else none
  | _, _ => none

/-- The router followed by the 404 handler of `server.js`. -/
def routes (env : Env) (fs : List (Option Fault)) (m : Method) (path : String) (db : DB)
    (req : Req) : Outcome :=
  match router env fs m path db req with
  | some o => o
  | none => ⟨{ res := notFoundPage, req := req }, db⟩

/-- The number of genres a submission carries: none for an absent field, one for a single
string, the length of an array. -/
def genreCount : GenresField → Nat
  | .missing => 0
  | .single _ => 1
  | .many gs => gs.length

/-! ## Sample data -/

/-- Whether a string consists of 24 hexadecimal digits. -/
def isHex24 (s : String) : Bool :=
  s.length == 24 && s.toList.all fun c => (hexVal c).isSome

/-- A sample environment: the year 2025, a float reading that knows `7` and `8`, identifiers of
24 hexadecimal digits. -/
def sampleEnv : Env :=
  { currentYear := 2025
    now := 100
    newId := "cccccccccccccccccccccccc"
    readFloat := fun s => if s = "7" then some 7 else if s = "8" then some 8 else none
    isObjectId := isHex24
    hash := fun p => "hash:" ++ p
    comparePassword := fun c h => "hash:" ++ c == h }

/-- A sample movie created by alice. -/
def sampleMovie : Movie :=
  { _id := "aaaaaaaaaaaaaaaaaaaaaaa1", name := "Up", description := "A house flies", year := 2009,
    genres := ["Adventure", "Comedy"], rating := 8, createdBy := "bbbbbbbbbbbbbbbbbbbbbbb1", createdAt := 10 }

/-- A sample store: one movie, two users. -/
def sampleDB : DB :=
  { movies := [sampleMovie]
    users := [⟨"bbbbbbbbbbbbbbbbbbbbbbb1", "alice", "alice@x.com", "hash:secret1", 1⟩,
              ⟨"bbbbbbbbbbbbbbbbbbbbbbb2", "bob", "bob@x.com", "hash:hunter22", 2⟩] }

/-- The session of alice. -/
def aliceSession : Session := ⟨some "bbbbbbbbbbbbbbbbbbbbbbb1", some "alice"⟩

/-- The session of bob. -/
def bobSession : Session := ⟨some "bbbbbbbbbbbbbbbbbbbbbbb2", some "bob"⟩

/-- A submission by alice with six genres and otherwise valid fields. -/
def sixGenresReq : Req :=
  { session := some aliceSession
    id := "aaaaaaaaaaaaaaaaaaaaaaa1"
    body :=
      { name := some "Up", description := some "A house flies", year := some "2009",
        genres := .many ["Action", "Adventure", "Comedy", "Drama", "Fantasy", "Horror"],
        rating := some "7" } }

/-- A submission by alice with the year 1700 and otherwise valid fields. -/
def year1700Req : Req :=
  { session := some aliceSession
    body :=
      { name := some "Roundhay Garden Scene", description := some "A garden in Leeds",
        year := some "1700", genres := .many ["Drama"], rating := some "7" } }

/-- A submission by alice with the year 1700 and a name typed with a blank on either side. -/
def paddedNameReq : Req :=
  { session := some aliceSession
    body :=
      { name := some " Up ", description := some "A house flies", year := some "1700",
        genres := .many ["Adventure"], rating := some "8" } }

/-- A valid submission by alice. -/
def validCreateReq : Req :=
  { session := some aliceSession
    body :=
      { name := some "Metropolis", description := some "A city of the future",
        year := some "1927", genres := .many ["Drama", "Sci-Fi"], rating := some "8" } }

/-- A registration of a new user `carol`. -/
def carolRegisterReq : Req :=
  { session := some ⟨none, none⟩
    body :=
      { username := some "carol", email := some "carol@x.com", password := some "secret1",
        confirmPassword := some "secret1" } }

/-- A login attempt with the email of alice and a wrong password. -/
def wrongPasswordReq : Req :=
  { session := some ⟨none, none⟩
    body := { email := some "alice@x.com", password := some "letmein" } }

/-! ## Lemmas on the gates -/

theorem isAuthenticated_of_session {req : Req} {s : Session} {uid : String}
    (hs : req.session = some s) (hu : s.userId = some uid) (hne : uid ≠ "") :
    isAuthenticated req = .next req := by
  simp [isAuthenticated, hs, hu, truthy, hne]

theorem flashCall_of_session {req : Req} {s : Session} (hs : req.session = some s)
    (type msg : String) : req.flashCall type msg = .ok (req.flashMsg type msg) := by
  simp [Req.flashCall, hs]

theorem casts_of_found (env : Env) {db : DB} {id : String} {M : Movie}
    (h : db.movies.find? (fun m => m._id == id) = some M) : castsToObjectId env db id = true := by
  have hmem := List.mem_of_find?_eq_some h
  have hp := List.find?_some h
  simp only [castsToObjectId, Bool.or_eq_true, List.any_eq_true]
  exact Or.inr ⟨M, hmem, hp⟩

theorem casts_of_not_found (env : Env) {db : DB} {id : String}
    (h : db.movies.find? (fun m => m._id == id) = none) :
    castsToObjectId env db id = env.isObjectId id := by
  have hn : (db.movies.any fun m => m._id == id) = false := by
    rw [List.any_eq_false]
    intro m hm
    have := List.find?_eq_none.mp h m hm
    simpa using this
  simp [castsToObjectId, hn]

theorem save_rejects_genres (fault : Option Fault) (env : Env) (db : DB) (doc : MovieDoc)
    (h : genresValidator doc.genres = false) :
    ∃ errs, ("genres", "Must have 1-5 genres") ∈ errs ∧
      Movie.save fault env db doc = .error ⟨validationMessage errs⟩ := by
  have hmem : ("genres", "Must have 1-5 genres") ∈ schemaErrors env doc := by
    simp [schemaErrors, h]
  cases hse : schemaErrors env doc with
  | nil => rw [hse] at hmem; cases hmem
  | cons e es =>
    refine ⟨e :: es, ?_, ?_⟩
    · rw [← hse]; exact hmem
    · simp [Movie.save, hse]

theorem errors_of_only_genres (env : Env) (req : Req)
    (h : ∀ e ∈ (movieValidation env req).2, e.param = "genres") :
    (movieValidation env req).2 =
      if genresFalsy req.body.genres then [⟨"genres", "At least one genre is required"⟩] else [] := by
  have hn : ("name" : String) ≠ "genres" := by decide
  have hd : ("description" : String) ≠ "genres" := by decide
  have hy : ("year" : String) ≠ "genres" := by decide
  have hr : ("rating" : String) ≠ "genres" := by decide
  unfold movieValidation at h ⊢
  simp only [List.mem_append, or_imp, forall_and] at h
  obtain ⟨⟨⟨⟨⟨⟨h1, h2⟩, h3⟩, h4⟩, h5⟩, _⟩, h7⟩ := h
  have e1 : (if jsTrim (req.body.name.getD "") = "" then
      [(⟨"name", "Movie name is required"⟩ : ValidationError)] else []) = [] := by
    split
    · rename_i hc
      exact absurd (h1 ⟨"name", "Movie name is required"⟩ (by simp [hc])) hn
    · rfl
  have e2 : (if validatorLength (jsTrim (req.body.name.getD "")) > 100 then
      [(⟨"name", "Name cannot exceed 100 characters"⟩ : ValidationError)] else []) = [] := by
    split
    · rename_i hc
      exact absurd (h2 ⟨"name", "Name cannot exceed 100 characters"⟩ (by simp [hc])) hn
    · rfl
  have e3 : (if jsTrim (req.body.description.getD "") = "" then
      [(⟨"description", "Description is required"⟩ : ValidationError)] else []) = [] := by
    split
    · rename_i hc
      exact absurd (h3 ⟨"description", "Description is required"⟩ (by simp [hc])) hd
    · rfl
  have e4 : (if validatorLength (jsTrim (req.body.description.getD "")) > 500 then
      [(⟨"description", "Description cannot exceed 500 characters"⟩ : ValidationError)]
      else []) = [] := by
    split
    · rename_i hc
      exact absurd
        (h4 ⟨"description", "Description cannot exceed 500 characters"⟩ (by simp [hc])) hd
    · rfl
  have e5 : (if isInt (req.body.year.getD "") 1888 (env.currentYear + 5) then []
      else [(⟨"year", "Please enter a valid year"⟩ : ValidationError)]) = [] := by
    split
    · rfl
    · rename_i hc
      exact absurd (h5 ⟨"year", "Please enter a valid year"⟩ (by simp [hc])) hy
  have e7 : (match req.body.rating.bind env.readFloat with
      | some r => if 0 ≤ r ∧ r ≤ 10 then []
          else [(⟨"rating", "Rating must be between 0 and 10"⟩ : ValidationError)]
      | none => [⟨"rating", "Rating must be between 0 and 10"⟩]) = [] := by
    split
    · split
      · rfl
      · rename_i hm hc
        rw [hm] at h7
        simp only [hc, if_false] at h7
        exact absurd (h7 ⟨"rating", "Rating must be between 0 and 10"⟩ (by simp)) hr
    · rename_i hm
      rw [hm] at h7
      exact absurd (h7 ⟨"rating", "Rating must be between 0 and 10"⟩ (by simp)) hr
  simp only [e1, e2, e3, e4, e5, e7, List.nil_append, List.append_nil]

/-- A `catch` block that queues a fixed notice shows the client nothing of the error. -/
theorem catchRedirect_hides_fault (req : Req) (db : DB) (label notice location : String)
    (e1 e2 : Fault) :
    (catchRedirect req db label notice location e1).visible =
      (catchRedirect req db label notice location e2).visible := by
  cases hs : req.session <;>
    simp [catchRedirect, Req.flashCall, errorHandler, Outcome.visible, hs]

/-! ## The claims -/

/-- On a request that has a session object, `isAuthenticated` (in `routes/movies.js` and in
`middleware/auth.js`) calls `next()` with the request untouched exactly when `userId` is
truthy, and otherwise queues "You need to log in first" and redirects to `/login`. -/
theorem isAuthenticated_with_session (req : Req) (s : Session) (hs : req.session = some s) :
    (isAuthenticated req = .next req ↔ truthy s.userId = true) ∧
    (Auth.isAuthenticated req = .next req ↔ truthy s.userId = true) ∧
    (truthy s.userId = false →
      isAuthenticated req =
        .done { res := .redirect "/login", req := req.flashMsg "error" "You need to log in first" } ∧
      Auth.isAuthenticated req =
        .done { res := .redirect "/login", req := req.flashMsg "error" "You need to log in first" }) := by
  cases ht : truthy s.userId <;>
    simp [isAuthenticated, Auth.isAuthenticated, Req.flashCall, hs, ht]

/-- C2 fails on the code for a request without a session object: the guard of `isAuthenticated`
is passed over without an error, but `req.flash` then throws "req.flash() requires sessions",
so `res.redirect('/login')` is never reached, no notice is queued and the error middleware
answers with the 500 page; `GET /movies/add` ends the same way. A request whose session has no
`userId` is redirected to `/login` with the notice, as the claim says. -/
theorem isAuthenticated_without_session_throws :
    isAuthenticated {} =
      .done { res := serverErrorPage, req := {}, log := [("", "req.flash() requires sessions")] } ∧
    Auth.isAuthenticated {} =
      .done { res := serverErrorPage, req := {}, log := [("", "req.flash() requires sessions")] } ∧
    (routes sampleEnv [] .GET "/movies/add" sampleDB {}).reply.res = serverErrorPage ∧
    (routes sampleEnv [] .GET "/movies/add" sampleDB {}).reply.res ≠ .redirect "/login" ∧
    (routes sampleEnv [] .GET "/movies/add" sampleDB {}).reply.req.flash = [] ∧
    (routes sampleEnv [] .GET "/movies/add" sampleDB { session := some ⟨none, none⟩ }).visible =
      (.redirect "/login", [("error", "You need to log in first")]) := by
  decide

/-- C1: a movie `M` of the store, addressed by its identifier, and an authenticated session whose
`userId` is not `M.createdBy`: `isMovieOwner` answers instead of calling `next()`, with a
redirect to `/movies/<M._id>` and the notice "You can only edit or delete movies you created";
`POST /movies/:id/edit` and `DELETE /movies/:id` end with that answer and leave the stores as
they were. -/
theorem non_owner_cannot_update_or_delete (env : Env) (fs : List (Option Fault)) (db : DB)
    (req : Req) (M : Movie) (s : Session) (uid : String)
    (hfault : faultAt fs 0 = none)
    (hM : db.movies.find? (fun m => m._id == req.id) = some M)
    (hs : req.session = some s) (hu : s.userId = some uid) (hne : uid ≠ "")
    (hother : uid ≠ M.createdBy) :
    isMovieOwner env (faultAt fs 0) db req =
      .done { res := .redirect ("/movies/" ++ M._id),
              req := req.flashMsg "error" "You can only edit or delete movies you created" } ∧
    updateMovie env fs db req =
      ⟨{ res := .redirect ("/movies/" ++ M._id),
         req := req.flashMsg "error" "You can only edit or delete movies you created" }, db⟩ ∧
    deleteMovie env fs db req =
      ⟨{ res := .redirect ("/movies/" ++ M._id),
         req := req.flashMsg "error" "You can only edit or delete movies you created" }, db⟩ := by
  have hgate : isMovieOwner env (faultAt fs 0) db req =
      .done { res := .redirect ("/movies/" ++ M._id),
              req := req.flashMsg "error" "You can only edit or delete movies you created" } := by
    have hne2 : ¬ M.createdBy = uid := fun h => hother h.symm
    simp [isMovieOwner, Movie.findById, casts_of_found env hM, Req.flashCall, hfault, hM, hs, hu,
      hne2]
  refine ⟨hgate, ?_, ?_⟩
  · simp [updateMovie, isAuthenticated_of_session hs hu hne, hgate]
  · simp [deleteMovie, isAuthenticated_of_session hs hu hne, hgate]

/-- C1, for bob asking to change or delete the movie that alice created. -/
theorem non_owner_cannot_update_or_delete_witness :
    deleteMovie sampleEnv [] sampleDB
        { session := some bobSession, id := "aaaaaaaaaaaaaaaaaaaaaaa1" } =
      ⟨{ res := .redirect "/movies/aaaaaaaaaaaaaaaaaaaaaaa1",
         req := Req.flashMsg { session := some bobSession, id := "aaaaaaaaaaaaaaaaaaaaaaa1" } "error"
           "You can only edit or delete movies you created" }, sampleDB⟩ :=
  (non_owner_cannot_update_or_delete sampleEnv [] sampleDB
    { session := some bobSession, id := "aaaaaaaaaaaaaaaaaaaaaaa1" } sampleMovie bobSession "bbbbbbbbbbbbbbbbbbbbbbb2"
    (by decide) (by decide) rfl rfl (by decide) (by decide)).2.2

/-- C3, as stated, fails: bob asks to delete the movie that alice created; the movie is not
deleted, yet the response is the redirect of `isMovieOwner`, not a JSON object with
`success: false`. -/
theorem delete_by_non_owner_is_not_json :
    (routes sampleEnv [] .DELETE "/movies/aaaaaaaaaaaaaaaaaaaaaaa1" sampleDB { session := some bobSession }).db
      = sampleDB ∧
    (routes sampleEnv [] .DELETE "/movies/aaaaaaaaaaaaaaaaaaaaaaa1" sampleDB { session := some bobSession }).reply.res
      = .redirect "/movies/aaaaaaaaaaaaaaaaaaaaaaa1" ∧
    ¬ ∃ status error,
      (routes sampleEnv [] .DELETE "/movies/aaaaaaaaaaaaaaaaaaaaaaa1" sampleDB { session := some bobSession }).reply.res
        = .json status false error := by
  refine ⟨by decide, by decide, ?_⟩
  rintro ⟨status, error, h⟩
  have h2 : (routes sampleEnv [] .DELETE "/movies/aaaaaaaaaaaaaaaaaaaaaaa1" sampleDB
      { session := some bobSession }).reply.res = .redirect "/movies/aaaaaaaaaaaaaaaaaaaaaaa1" := by decide
  rw [h2] at h
  exact Response.noConfusion h

/-- C3, amended: a `DELETE /movies/:id` request of an authenticated user that deletes nothing,
because the identifier names no movie or because another user created the movie, is answered
by `isMovieOwner` with a redirect and a queued notice, never with a JSON object and never with
a server error page. The notice is "Movie not found" when the lookup returns no movie and
"Server error" when the lookup throws (the identifier does not cast to an ObjectId, or the
store fails); for the movie of another user that the lookup returns, the redirect goes to
`/movies/<id>` with "You can only edit or delete movies you created". The stores are
unchanged, and the movie of the other user is still shown by `GET /movies/:id` afterwards. -/
theorem delete_denied_is_redirect (env : Env) (fs : List (Option Fault)) (db : DB) (req : Req)
    (s : Session) (uid : String)
    (hs : req.session = some s) (hu : s.userId = some uid) (hne : uid ≠ "") :
    (db.movies.find? (fun m => m._id == req.id) = none →
      (∃ loc, (deleteMovie env fs db req).reply.res = .redirect loc) ∧
      (deleteMovie env fs db req).reply.req = req.flashMsg "error"
        (if env.isObjectId req.id = true ∧ faultAt fs 0 = none then "Movie not found"
         else "Server error") ∧
      (deleteMovie env fs db req).db = db) ∧
    (∀ M, db.movies.find? (fun m => m._id == req.id) = some M → uid ≠ M.createdBy →
      (faultAt fs 0 = none →
        deleteMovie env fs db req =
          ⟨{ res := .redirect ("/movies/" ++ M._id),
             req := req.flashMsg "error" "You can only edit or delete movies you created" },
           db⟩) ∧
      (faultAt fs 0 ≠ none →
        (∃ loc, (deleteMovie env fs db req).reply.res = .redirect loc) ∧
        (deleteMovie env fs db req).reply.req = req.flashMsg "error" "Server error") ∧
      (deleteMovie env fs db req).db = db ∧
      (showMovie env [] (deleteMovie env fs db req).db req).reply.res =
        .render (.moviesShow M.name (populate db M))) := by
  have hauth := isAuthenticated_of_session hs hu hne
  constructor
  · intro hnone
    have hc := casts_of_not_found env hnone
    cases hid : env.isObjectId req.id <;> cases hf : faultAt fs 0 <;>
      simp [deleteMovie, hauth, isMovieOwner, Movie.findById, Req.flashCall, hc, hid, hf, hnone,
        hs]
  · intro M hM hother
    have hne2 : ¬ M.createdBy = uid := fun h => hother h.symm
    have hc := casts_of_found env hM
    have hshow : ∀ o : Outcome, o.db = db →
        (showMovie env [] o.db req).reply.res = .render (.moviesShow M.name (populate db M)) := by
      intro o ho
      rw [ho]
      simp [showMovie, Movie.findById, faultAt, hc, hM]
    cases hf : faultAt fs 0 with
    | none =>
      have hdel : deleteMovie env fs db req =
          ⟨{ res := .redirect ("/movies/" ++ M._id),
             req := req.flashMsg "error" "You can only edit or delete movies you created" },
           db⟩ := by
        simp [deleteMovie, hauth, isMovieOwner, Movie.findById, Req.flashCall, hc, hf, hM, hs,
          hu, hne2]
      refine ⟨fun _ => hdel, fun h => absurd rfl h, (by rw [hdel]), hshow _ (by rw [hdel])⟩
    | some f =>
      have hdel : deleteMovie env fs db req =
          ⟨{ res := .redirect "/movies", req := req.flashMsg "error" "Server error",
             log := [("Error checking movie ownership:", f.message)] }, db⟩ := by
        simp [deleteMovie, hauth, isMovieOwner, Movie.findById, Req.flashCall, hc, hf, hs]
      refine ⟨fun h => Option.noConfusion h, fun _ => ?_, (by rw [hdel]), hshow _ (by rw [hdel])⟩
      rw [hdel]
      exact ⟨⟨_, rfl⟩, rfl⟩

/-- C3, amended, for bob asking to delete the movie that alice created. -/
theorem delete_denied_is_redirect_witness :
    (showMovie sampleEnv []
      (deleteMovie sampleEnv [] sampleDB
        { session := some bobSession, id := "aaaaaaaaaaaaaaaaaaaaaaa1" }).db
      { session := some bobSession, id := "aaaaaaaaaaaaaaaaaaaaaaa1" }).reply.res =
      .render (.moviesShow "Up" (populate sampleDB sampleMovie)) :=
  ((delete_denied_is_redirect sampleEnv [] sampleDB
    { session := some bobSession, id := "aaaaaaaaaaaaaaaaaaaaaaa1" }
    bobSession "bbbbbbbbbbbbbbbbbbbbbbb2" rfl rfl (by decide)).2 sampleMovie (by decide)
    (by decide)).2.2.2

/-- C4: for an identifier that names no movie, `isMovieOwner` queues "Movie not found" and
redirects to `/movies`. No route serves `GET /movies`: the request falls through to the 404
handler, whereas the catalog listing is served at `/` (where `GET /movies/:id` redirects for
the same missing movie). -/
theorem missing_movie_redirect_is_unrouted (env : Env) (fs : List (Option Fault)) (db : DB)
    (req : Req) :
    updateMovie sampleEnv [] sampleDB { session := some aliceSession, id := "aaaaaaaaaaaaaaaaaaaaa404" } =
      ⟨{ res := .redirect "/movies",
         req := Req.flashMsg { session := some aliceSession, id := "aaaaaaaaaaaaaaaaaaaaa404" } "error"
           "Movie not found" }, sampleDB⟩ ∧
    routes env fs .GET "/movies" db req = ⟨{ res := notFoundPage, req := req }, db⟩ ∧
    router env fs .GET "/" db req = some (listMovies fs db req) ∧
    (showMovie sampleEnv [] sampleDB
        { session := some aliceSession, id := "aaaaaaaaaaaaaaaaaaaaa404" }).reply.res =
      .redirect "/" := by
  refine ⟨by decide, ?_, ?_, by decide⟩
  · have hseg : segments "/movies" = ["movies"] := by decide
    have h1 : isSeg "movies" "register" = false := by decide
    have h2 : isSeg "movies" "login" = false := by decide
    have h3 : isSeg "movies" "logout" = false := by decide
    simp [routes, router, hseg, h1, h2, h3]
  · have hseg : segments "/" = [] := by decide
    simp [router, hseg]

/-- C5: a `POST /movies/add` submission of an authenticated user whose genre count is outside
1..5 and on which the route-level chain reports no error for any other field persists nothing.
An absent `genres` is rejected by the route-level check (the form is rendered again with the
error "At least one genre is required"); an array of length 0 or above 5 passes the route-level
chain and is rejected by the schema validator that `save()` runs ("Must have 1-5 genres"). -/
theorem create_rejects_genre_count_out_of_range (env : Env) (fs : List (Option Fault)) (db : DB)
    (req : Req) (s : Session) (uid : String)
    (hs : req.session = some s) (hu : s.userId = some uid) (hne : uid ≠ "")
    (hcount : genreCount req.body.genres < 1 ∨ 5 < genreCount req.body.genres)
    (hvalid : ∀ e ∈ (movieValidation env req).2, e.param = "genres") :
    (addMovie env fs db req).db = db ∧
    (req.body.genres = .missing →
      (addMovie env fs db req).reply.res =
        .render (.moviesAdd "Add New Movie" (movieValidation env req).1.body
          (some [⟨"genres", "At least one genre is required"⟩]) genreChoices)) ∧
    (∀ gs, req.body.genres = .many gs →
      (movieValidation env req).2 = [] ∧
      ∃ errs, ("genres", "Must have 1-5 genres") ∈ errs ∧
        (addMovie env fs db req).reply =
          { res := .redirect "/movies/add"
            req := (movieValidation env req).1.flashMsg "error"
              ("Error saving movie: " ++ validationMessage errs)
            log := [("Error saving movie:", validationMessage errs)] }) := by
  have hauth := isAuthenticated_of_session hs hu hne
  have herrs := errors_of_only_genres env req hvalid
  have hsess : (movieValidation env req).1.session = some s := by
    simp [movieValidation, hs]
  have hbody : (movieValidation env req).1.body.genres = req.body.genres := by
    simp [movieValidation]
  cases hg : req.body.genres with
  | missing =>
    have he : (movieValidation env req).2 = [⟨"genres", "At least one genre is required"⟩] := by
      rw [herrs, hg]; rfl
    refine ⟨?_, ?_, ?_⟩
    · simp [addMovie, hauth, addMovieHandler, he]
    · intro _
      simp [addMovie, hauth, addMovieHandler, he]
    · intro gs h; cases h
  | single g =>
    rw [hg] at hcount
    simp [genreCount] at hcount
  | many gs =>
    have he : (movieValidation env req).2 = [] := by
      rw [herrs, hg]; rfl
    have hval : genresValidator (genresArray (GenresField.many gs)) = false := by
      rw [hg] at hcount
      simp only [genreCount] at hcount
      simp only [genresValidator, genresArray]
      rcases hcount with h | h
      · have : gs.length = 0 := by omega
        simp [this]
      · have : ¬ gs.length ≤ 5 := by omega
        simp [this]
    obtain ⟨errs, hmem, hsave⟩ := save_rejects_genres (faultAt fs 0) env db
      { name := (movieValidation env req).1.body.name
        description := (movieValidation env req).1.body.description
        year := parseInt ((movieValidation env req).1.body.year.getD "undefined")
        genres := genresArray (GenresField.many gs)
        rating := (movieValidation env req).1.body.rating.bind env.readFloat
        createdBy := s.userId } hval
    have hout : addMovie env fs db req =
        ⟨{ res := .redirect "/movies/add"
           req := (movieValidation env req).1.flashMsg "error"
             ("Error saving movie: " ++ validationMessage errs)
           log := [("Error saving movie:", validationMessage errs)] }, db⟩ := by
      simp only [addMovie, hauth, addMovieHandler, he, hsess, hbody, hg]
      simp [hsave, catchRedirect, Req.flashCall, hsess]
    refine ⟨by rw [hout], ?_, ?_⟩
    · intro h; cases h
    · intro gs2 _
      exact ⟨he, errs, hmem, by rw [hout]⟩

/-- C5, for alice submitting six genres with otherwise valid fields. -/
theorem create_rejects_genre_count_out_of_range_witness :
    (addMovie sampleEnv [] sampleDB sixGenresReq).db = sampleDB :=
  (create_rejects_genre_count_out_of_range sampleEnv [] sampleDB sixGenresReq aliceSession "bbbbbbbbbbbbbbbbbbbbbbb1"
    rfl rfl (by decide) (by decide) (by decide)).1

/-- C6, as stated, fails: alice submits the year 1700 with the name typed as " Up ". Nothing is
persisted and the form is rendered again with the year error, but `movie` is not the submitted
body: the `trim()` of the validation chain has written the name "Up" into `req.body`. -/
theorem year_error_echo_is_not_submitted_body :
    (addMovie sampleEnv [] sampleDB paddedNameReq).db = sampleDB ∧
    (addMovie sampleEnv [] sampleDB paddedNameReq).reply.res =
      .render (.moviesAdd "Add New Movie" { paddedNameReq.body with name := some "Up" }
        (some [⟨"year", "Please enter a valid year"⟩]) genreChoices) ∧
    ¬ ∃ errs, (addMovie sampleEnv [] sampleDB paddedNameReq).reply.res =
      .render (.moviesAdd "Add New Movie" paddedNameReq.body (some errs) genreChoices) := by
  have h : (addMovie sampleEnv [] sampleDB paddedNameReq).reply.res =
      .render (.moviesAdd "Add New Movie" { paddedNameReq.body with name := some "Up" }
        (some [⟨"year", "Please enter a valid year"⟩]) genreChoices) := by decide
  refine ⟨by decide, h, ?_⟩
  rintro ⟨errs, he⟩
  rw [h] at he
  have hb : ({ paddedNameReq.body with name := some "Up" } : Body) = paddedNameReq.body := by
    injection he with hv
    injection hv
  exact absurd hb (by decide)

/-- C6, amended: a `POST /movies/add` submission of an authenticated user whose year is an
integer outside 1888..currentYear+5 persists nothing and renders `movies/add` again with a
non-empty error list that contains the year error and with `movie` set to `req.body` as the
validation chain leaves it: the submitted body in which `name` and `description` are trimmed
(an absent one becomes the empty string) and nothing else is touched. The year is the submitted
string, and the body is the submitted body itself when name and description came without
surrounding white space. -/
theorem create_rejects_year_out_of_range (env : Env) (fs : List (Option Fault)) (db : DB)
    (req : Req) (s : Session) (uid : String) (y : String) (n : Int)
    (hs : req.session = some s) (hu : s.userId = some uid) (hne : uid ≠ "")
    (hy : req.body.year = some y) (hn : readInt y = some n)
    (hout : n < 1888 ∨ env.currentYear + 5 < n) :
    addMovie env fs db req =
      ⟨{ res := .render (.moviesAdd "Add New Movie" (movieValidation env req).1.body
                  (some (movieValidation env req).2) genreChoices)
         req := (movieValidation env req).1 }, db⟩ ∧
    View.name (.moviesAdd "Add New Movie" (movieValidation env req).1.body
      (some (movieValidation env req).2) genreChoices) = "movies/add" ∧
    (movieValidation env req).2 ≠ [] ∧
    (⟨"year", "Please enter a valid year"⟩ : ValidationError) ∈ (movieValidation env req).2 ∧
    (movieValidation env req).1.body =
      { req.body with
        name := some (jsTrim (req.body.name.getD ""))
        description := some (jsTrim (req.body.description.getD "")) } ∧
    (movieValidation env req).1.body.year = some y ∧
    (∀ nm ds, req.body.name = some nm → jsTrim nm = nm →
      req.body.description = some ds → jsTrim ds = ds →
      (movieValidation env req).1.body = req.body) := by
  have hauth := isAuthenticated_of_session hs hu hne
  have hint : isInt (req.body.year.getD "") 1888 (env.currentYear + 5) = false := by
    simp only [hy, Option.getD_some, isInt, hn]
    rcases hout with h | h
    · have : ¬ (1888 : Int) ≤ n := by omega
      simp [this]
    · have : ¬ n ≤ env.currentYear + 5 := by omega
      simp [this]
  have hmem : (⟨"year", "Please enter a valid year"⟩ : ValidationError) ∈
      (movieValidation env req).2 := by
    simp [movieValidation, hint]
  have hne2 : (movieValidation env req).2 ≠ [] := by
    intro h; rw [h] at hmem; cases hmem
  refine ⟨?_, rfl, hne2, hmem, rfl, ?_, ?_⟩
  · simp [addMovie, hauth, addMovieHandler, hne2]
  · simp [movieValidation, hy]
  · intro nm ds h1 h2 h3 h4
    cases hb : req.body
    simp only [movieValidation]
    rw [hb] at h1 h3
    simp only at h1 h3
    simp [hb, h1, h2, h3, h4]

/-- C6, for alice submitting the year 1700. -/
theorem create_rejects_year_out_of_range_witness :
    (addMovie sampleEnv [] sampleDB year1700Req).db = sampleDB ∧
    (addMovie sampleEnv [] sampleDB year1700Req).reply.res =
      .render (.moviesAdd "Add New Movie" year1700Req.body
        (some [⟨"year", "Please enter a valid year"⟩]) genreChoices) :=
  have h := create_rejects_year_out_of_range sampleEnv [] sampleDB year1700Req aliceSession "bbbbbbbbbbbbbbbbbbbbbbb1"
    "1700" 1700 rfl rfl (by decide) rfl (by decide) (by decide)
  ⟨by rw [h.1], by rw [h.1]; decide⟩

/-- C7 fails on the code: alice, the owner of the stored movie, posts six genres with otherwise
valid fields to `/movies/aaaaaaaaaaaaaaaaaaaaaaa1/edit`. The update is written (the stored movie now has six genres)
and the response is the success redirect, whereas the same submission to `/movies/add` is
rejected by the schema validator and leaves the store as it was. -/
theorem update_accepts_six_genres :
    (updateMovie sampleEnv [] sampleDB sixGenresReq).reply.res = .redirect "/movies/aaaaaaaaaaaaaaaaaaaaaaa1" ∧
    (updateMovie sampleEnv [] sampleDB sixGenresReq).reply.req.flash =
      [("success", "Movie updated successfully!")] ∧
    (updateMovie sampleEnv [] sampleDB sixGenresReq).db.movies =
      [{ sampleMovie with
          genres := ["Action", "Adventure", "Comedy", "Drama", "Fantasy", "Horror"]
          rating := 7 }] ∧
    (updateMovie sampleEnv [] sampleDB sixGenresReq).db ≠ sampleDB ∧
    (addMovie sampleEnv [] sampleDB sixGenresReq).db = sampleDB := by
  decide

/-- C8: a `POST /register` request with string username, email, password and confirmPassword,
against any user store (no storage fault). A user record is created exactly when no stored user
has the submitted email or username, the password equals its confirmation and the password has
at least 6 characters (JavaScript `length`); otherwise the stores are unchanged. On a request
with a session object (every request that reaches the router has one: `server.js` reads
`req.session.userId` in the middleware before the router) the creation is followed by the
success notice and the redirect to `/login`, and that outcome occurs exactly under the same
condition. When a stored user has the email or the username, the answer is the conflict error
"Email or username already exists", whatever the passwords are, and the stores are
unchanged. -/
theorem register_creates_iff_free_and_password_ok (env : Env) (fs : List (Option Fault))
    (db : DB) (req : Req) (n e p c : String)
    (hf0 : faultAt fs 0 = none) (hf1 : faultAt fs 1 = none)
    (hn : req.body.username = some n) (he : req.body.email = some e)
    (hp : req.body.password = some p) (hc : req.body.confirmPassword = some c) :
    ((register env fs db req).db =
        { db with users := db.users ++ [⟨env.newId, n, e, env.hash p, env.now⟩] } ↔
      ((∀ u ∈ db.users, u.email ≠ e ∧ u.username ≠ n) ∧ p = c ∧ 6 ≤ jsLength p)) ∧
    (∀ s, req.session = some s →
      (register env fs db req =
          ⟨{ res := .redirect "/login"
             req := req.flashMsg "success" "Registration successful! Please log in." },
           { db with users := db.users ++ [⟨env.newId, n, e, env.hash p, env.now⟩] }⟩ ↔
        ((∀ u ∈ db.users, u.email ≠ e ∧ u.username ≠ n) ∧ p = c ∧ 6 ≤ jsLength p))) ∧
    (¬ ((∀ u ∈ db.users, u.email ≠ e ∧ u.username ≠ n) ∧ p = c ∧ 6 ≤ jsLength p) →
      (register env fs db req).db = db ∧
      ∃ msg, (register env fs db req).reply =
        { res := .render (.authRegister "Register" (some [msg]) req.body), req := req }) ∧
    ((∃ u ∈ db.users, u.email = e ∨ u.username = n) →
      register env fs db req =
        ⟨{ res := .render (.authRegister "Register" (some ["Email or username already exists"])
                    req.body), req := req }, db⟩) := by
  have hconflict : (∃ u ∈ db.users, u.email = e ∨ u.username = n) →
      register env fs db req =
        ⟨{ res := .render (.authRegister "Register" (some ["Email or username already exists"])
                    req.body), req := req }, db⟩ := by
    rintro ⟨u, hu, huu⟩
    cases hfind : db.users.find? (fun u => u.email == e || u.username == n) with
    | none =>
      have := List.find?_eq_none.mp hfind u hu
      simp at this
      rcases huu with h | h
      · exact absurd h this.1
      · exact absurd h this.2
    | some v =>
      simp [register, User.findOneByEmailOrUsername, hf0, hn, he, hfind]
  have hfree : (∀ u ∈ db.users, u.email ≠ e ∧ u.username ≠ n) →
      db.users.find? (fun u => u.email == e || u.username == n) = none := by
    intro h
    apply List.find?_eq_none.mpr
    intro u hu
    have := h u hu
    simp [this.1, this.2]
  have hbad : ¬ ((∀ u ∈ db.users, u.email ≠ e ∧ u.username ≠ n) ∧ p = c ∧ 6 ≤ jsLength p) →
      (register env fs db req).db = db ∧
      ∃ msg, (register env fs db req).reply =
        { res := .render (.authRegister "Register" (some [msg]) req.body), req := req } := by
    intro hnot
    by_cases h1 : ∀ u ∈ db.users, u.email ≠ e ∧ u.username ≠ n
    · have hfind := hfree h1
      by_cases h2 : p = c
      · have h3 : jsLength p < 6 := by
          by_contra h3
          exact hnot ⟨h1, h2, by omega⟩
        subst h2
        simp [register, User.findOneByEmailOrUsername, hf0, hn, he, hp, hc, hfind, h3]
      · simp [register, User.findOneByEmailOrUsername, hf0, hn, he, hp, hc, hfind, h2]
    · have hex : ∃ u ∈ db.users, u.email = e ∨ u.username = n := by
        by_contra hno
        apply h1
        intro u hu
        constructor
        · intro h; exact hno ⟨u, hu, Or.inl h⟩
        · intro h; exact hno ⟨u, hu, Or.inr h⟩
      rw [hconflict hex]
      exact ⟨rfl, _, rfl⟩
  have hcreated : (register env fs db req).db =
        { db with users := db.users ++ [⟨env.newId, n, e, env.hash p, env.now⟩] } →
      ((∀ u ∈ db.users, u.email ≠ e ∧ u.username ≠ n) ∧ p = c ∧ 6 ≤ jsLength p) := by
    intro hreg
    by_contra hnot
    have hdb := (hbad hnot).1
    rw [hreg] at hdb
    have hlen := congrArg (fun d => d.users.length) hdb
    simp at hlen
  have hany : (∀ u ∈ db.users, u.email ≠ e ∧ u.username ≠ n) →
      (db.users.any fun u => u.email == e || u.username == n) = false := by
    intro h1
    rw [List.any_eq_false]
    intro u hu
    have := h1 u hu
    simp [this.1, this.2]
  refine ⟨⟨hcreated, ?_⟩, ?_, hbad, hconflict⟩
  · rintro ⟨h1, h2, h3⟩
    have hfind := hfree h1
    subst h2
    have h3' : ¬ jsLength p < 6 := by omega
    cases hsess : req.session <;>
      simp [register, User.findOneByEmailOrUsername, User.save, Req.flashCall, catchRedirect,
        errorHandler, hsess, hf0, hf1, hn, he, hp, hc, hfind, h3', hany h1]
  · intro s hs
    constructor
    · intro hreg
      exact hcreated (by rw [hreg])
    · rintro ⟨h1, h2, h3⟩
      have hfind := hfree h1
      subst h2
      have h3' : ¬ jsLength p < 6 := by omega
      simp [register, User.findOneByEmailOrUsername, User.save, Req.flashCall, hs, hf0, hf1, hn,
        he, hp, hc, hfind, h3', hany h1]

/-- C8, for carol registering against a store that holds alice and bob. -/
theorem register_creates_iff_free_and_password_ok_witness :
    (register sampleEnv [] sampleDB carolRegisterReq).reply.res = .redirect "/login" ∧
    (register sampleEnv [] sampleDB carolRegisterReq).db.users =
      sampleDB.users ++
        [⟨"cccccccccccccccccccccccc", "carol", "carol@x.com", "hash:secret1", 100⟩] :=
  have h := ((register_creates_iff_free_and_password_ok sampleEnv [] sampleDB carolRegisterReq
    "carol" "carol@x.com" "secret1" "secret1" rfl rfl rfl rfl rfl rfl).2.1 ⟨none, none⟩ rfl).2
    (by decide)
  ⟨by rw [h], by rw [h]; rfl⟩

/-- C9: for every login body, the reply of `POST /login` when no user has the submitted email
equals the reply when a user with that email exists and `comparePassword` gives `false`: the
view `auth/login` with the title "Login", the single error "Invalid email or password" and the
body echoed; the request object, and with it `req.session`, is left as it was. -/
theorem login_failures_indistinguishable (env : Env) (fs1 fs2 : List (Option Fault))
    (db1 db2 : DB) (req : Req) (u : User)
    (hnone : User.findOneByEmail (faultAt fs1 0) db1 req.body.email = .ok none)
    (hsome : User.findOneByEmail (faultAt fs2 0) db2 req.body.email = .ok (some u))
    (hcmp : User.comparePassword (faultAt fs2 1) env u req.body.password = .ok false) :
    (login env fs1 db1 req).reply = (login env fs2 db2 req).reply ∧
    (login env fs1 db1 req).reply =
      { res := .render (.authLogin "Login" (some ["Invalid email or password"]) req.body)
        req := req } ∧
    View.name (.authLogin "Login" (some ["Invalid email or password"]) req.body) = "auth/login" ∧
    (login env fs1 db1 req).reply.req.session = req.session ∧
    (login env fs2 db2 req).reply.req.session = req.session := by
  have e1 : login env fs1 db1 req =
      ⟨{ res := .render (.authLogin "Login" (some ["Invalid email or password"]) req.body)
         req := req }, db1⟩ := by
    simp [login, hnone]
  have e2 : login env fs2 db2 req =
      ⟨{ res := .render (.authLogin "Login" (some ["Invalid email or password"]) req.body)
         req := req }, db2⟩ := by
    simp [login, hsome, hcmp]
  rw [e1, e2]
  exact ⟨rfl, rfl, rfl, rfl, rfl⟩

/-- C9, for the email of alice with a wrong password, against an empty user store and against
the store that holds alice. -/
theorem login_failures_indistinguishable_witness :
    (login sampleEnv [] ⟨[], []⟩ wrongPasswordReq).reply =
      (login sampleEnv [] sampleDB wrongPasswordReq).reply :=
  (login_failures_indistinguishable sampleEnv [] [] ⟨[], []⟩ sampleDB wrongPasswordReq
    ⟨"bbbbbbbbbbbbbbbbbbbbbbb1", "alice", "alice@x.com", "hash:secret1", 1⟩ rfl rfl rfl).1

/-- C10 fails on the code for create: the storage layer faults while `POST /movies/add` saves a
valid submission. The notice queued for the client is "Error saving movie: " followed by the
message of the fault, so two faults with different messages give different notices. -/
theorem create_notice_carries_fault_message :
    (addMovie sampleEnv [some ⟨"connect ECONNREFUSED 10.0.0.5:27017"⟩] sampleDB
        validCreateReq).visible =
      (.redirect "/movies/add",
        [("error", "Error saving movie: connect ECONNREFUSED 10.0.0.5:27017")]) ∧
    (addMovie sampleEnv [some ⟨"E11000 duplicate key error"⟩] sampleDB validCreateReq).visible =
      (.redirect "/movies/add", [("error", "Error saving movie: E11000 duplicate key error")]) ∧
    (addMovie sampleEnv [some ⟨"connect ECONNREFUSED 10.0.0.5:27017"⟩] sampleDB
        validCreateReq).visible ≠
      (addMovie sampleEnv [some ⟨"E11000 duplicate key error"⟩] sampleDB validCreateReq).visible ∧
    (updateMovie sampleEnv [none, some ⟨"connect ECONNREFUSED 10.0.0.5:27017"⟩] sampleDB
        { validCreateReq with id := "aaaaaaaaaaaaaaaaaaaaaaa1" }).visible =
      (updateMovie sampleEnv [none, some ⟨"E11000 duplicate key error"⟩] sampleDB
        { validCreateReq with id := "aaaaaaaaaaaaaaaaaaaaaaa1" }).visible := by
  decide

end MovieApp
